import Mathlib

/-!
Shallow embedding of `src/fizzbuzz.ts` (rule-pipeline fizzbuzz engine).

Modelling conventions:
* Rules are identified by reference in the source (`includes`, `!==`); following
  the spec's own suggestion we model reference identity with an explicit
  identifier `RuleId` into an arena `Arena : RuleId → FizzBuzzRule`.
  Groups and rule sets hold lists of `RuleId`.
* The optional `context` argument is never supplied anywhere in the call path
  of the source (`applyRules` calls every predicate with the number only), so
  predicates are modelled as `Int → Bool`.
* JS `undefined`-able values (`TaggedRuleGroup[] | undefined`, optional fields)
  are modelled with `Option`; `x || []` becomes `Option.getD [] `.
* A thrown exception (there is no catch anywhere) makes the whole run fail;
  fallible evaluation therefore returns `Option String`, `none` = uncaught
  exception.
* JS numbers are used only at integral values here; they are modelled as `Int`.
-/

abbrev RuleId := Nat

abbrev RuleEvaluator := Int → Bool

abbrev ResultTransformer := String → Int → String

/-- `FizzBuzzRule` from the source (lines 1-8).  The source's `evaluateRule`
additionally reads a `condition` field (line 57) that the TS type does not
declare; the spec calls it a legacy per-rule alias, so we carry it. -/
structure FizzBuzzRule where
  evaluator : Option RuleEvaluator
  condition : Option RuleEvaluator
  output : String
  events : List (Int → Unit)
  filter : Option RuleEvaluator
  priority : Option Int
  resultTransformer : Option ResultTransformer

abbrev RuleDecorator := FizzBuzzRule → FizzBuzzRule

inductive SelectBehavior where
  | all : SelectBehavior
  | first : SelectBehavior
  | last : SelectBehavior
deriving DecidableEq

/-- `TaggedRuleGroup` (source lines 14-20); `rules` holds rule identities. -/
structure TaggedRuleGroup where
  tag : String
  rules : List RuleId
  selectBehavior : SelectBehavior
  decorators : Option (List RuleDecorator)
  resultTransformer : Option ResultTransformer

/-- `RuleSet` (source lines 26-29). -/
structure RuleSet where
  condition : RuleEvaluator
  rules : List RuleId

abbrev RuleGroupSelector := Int → Option (List TaggedRuleGroup)

abbrev RuleSelector := Int → Option (List RuleSet)

abbrev RuleGroupModifier := List TaggedRuleGroup → List TaggedRuleGroup

abbrev ResultFormatter := List String → String

/-- `FizzBuzzPlugin` (source lines 37-42); every field is optional. -/
structure FizzBuzzPlugin where
  ruleGroupSelectors : Option (List RuleGroupSelector)
  ruleSelectors : Option (List RuleSelector)
  ruleGroupModifiers : Option (List RuleGroupModifier)
  resultFormatters : Option (List ResultFormatter)

/-- The arena interpreting rule identities as rule values (reference model). -/
abbrev Arena := RuleId → FizzBuzzRule

/-- Source lines 44-46: `decorators.reduce((m, d) => d(m, ctx), rule)`. -/
def applyDecorators (rule : FizzBuzzRule) (decorators : List RuleDecorator) :
    FizzBuzzRule :=
  decorators.foldl (fun modifiedRule decorator => decorator modifiedRule) rule

/-- Source lines 48-52: fires the event callbacks; the callbacks return unit so
in the pure model this produces no observable value used anywhere. -/
def applyRuleEvents (rule : FizzBuzzRule) (num : Int) : List Unit :=
  rule.events.map (fun event => event num)

/-- Source lines 54-61: `evaluator` if present, else the undeclared `condition`
field, else no match. -/
def evaluateRule (rule : FizzBuzzRule) (num : Int) : Bool :=
  match rule.evaluator with
  | some e => e num
  | none =>
    match rule.condition with
    | some c => c num
    | none => false

/-- Source lines 76-79: tag of the first group whose `rules` contains the rule
(by reference), else the literal `"Default"`. -/
def getRuleTag (r : RuleId) (matchingGroups : List TaggedRuleGroup) : String :=
  match matchingGroups.find? (fun group => group.rules.contains r) with
  | some group => group.tag
  | none => "Default"

/-- Source lines 81-84: fold the transformers contributed by the groups
(`flatMap` of the optional field) over the result string. -/
def applyResultTransformer (result : String) (num : Int)
    (matchingGroups : List TaggedRuleGroup) : String :=
  let ruleTransformers :=
    matchingGroups.flatMap (fun group => group.resultTransformer.toList)
  ruleTransformers.foldl
    (fun modifiedResult transformer => transformer modifiedResult num) result

/-- Source line 145: `ds.reduce(applyDecorators, rule)`.  JS `reduce` calls its
callback with the accumulator and ONE element of `ds`, so `applyDecorators`
receives a single decorator function as its `decorators` parameter and calls
`.reduce` on it; a function has no `reduce` method, so the first callback
invocation raises a TypeError.  Hence: an empty decorator list yields the rule
unchanged, a nonempty one crashes (`none`). -/
def reduceApplyDecorators (rule : FizzBuzzRule)
    (decorators : List RuleDecorator) : Option FizzBuzzRule :=
  match decorators with
  | [] => some rule
  | _ :: _ => none

/-- Source lines 143-150, given a matched rule `r`: restrict the collected
groups to the ones containing `r`, run the (crashing) decorator reduce, and
build the label `"[" ++ tag ++ ": " ++ transformed ++ "]"`. -/
def emitLabel (arena : Arena) (matchingGroups : List TaggedRuleGroup)
    (r : RuleId) (num : Int) : Option String :=
  let ruleGroupsWithRule :=
    matchingGroups.filter (fun group => group.rules.contains r)
  (reduceApplyDecorators (arena r)
      (ruleGroupsWithRule.flatMap (fun group => group.decorators.getD []))).map
    (fun modifiedRule =>
      "[" ++ getRuleTag r ruleGroupsWithRule ++ ": " ++
        applyResultTransformer modifiedRule.output num ruleGroupsWithRule ++ "]")

/-- The sort key of line 134: `a.priority || 0` (absent priority is 0). -/
def priorityOf (arena : Arena) (r : RuleId) : Int :=
  ((arena r).priority).getD 0

/-- One insertion step of the stable ascending sort: `r` goes after every
already-placed rule of strictly smaller priority and before the first one of
greater-or-equal priority, which preserves the original relative order of
equal-priority rules. -/
def insertRule (arena : Arena) (r : RuleId) : List RuleId → List RuleId
  | [] => [r]
  | s :: t =>
    if priorityOf arena s < priorityOf arena r then s :: insertRule arena r t
    else r :: s :: t

/-- Source line 134: `rules.sort((a, b) => (a.priority || 0) - (b.priority || 0))`.
ES2019 `Array.prototype.sort` is stable; insertion sort with the strict
comparison above computes exactly the stable ascending reordering. -/
def sortRules (arena : Arena) : List RuleId → List RuleId
  | [] => []
  | r :: t => insertRule arena r (sortRules arena t)

/-- Source line 135: `.filter((rule, index, self) => !index || rule !== self[index - 1])`
keeps an element unless it is reference-identical to its immediate predecessor
in the sorted array (adjacent-duplicate removal only). -/
def dedupAdjacent : List RuleId → List RuleId
  | [] => []
  | [r] => [r]
  | r :: s :: t =>
    if r = s then dedupAdjacent (s :: t) else r :: dedupAdjacent (s :: t)

/-- Source lines 138-140: a present filter that rejects the number skips the
rule; an absent filter blocks nothing. -/
def passesFilter (rule : FizzBuzzRule) (num : Int) : Bool :=
  match rule.filter with
  | some f => f num
  | none => true

/-- A rule survives the scan of lines 137-142 when its filter passes and
`evaluateRule` matches. -/
def ruleMatches (arena : Arena) (num : Int) (r : RuleId) : Bool :=
  passesFilter (arena r) num && evaluateRule (arena r) num

/-- The processed rule list of lines 133-135: stable priority sort, then
adjacent-duplicate removal. -/
def processedRules (arena : Arena) (rs : RuleSet) : List RuleId :=
  dedupAdjacent (sortRules arena rs.rules)

/-- The rule-set loop of lines 131-159.  `some (some s)`: a rule matched and
emitted label `s` (first matching rule of the first active set, both loops
break).  `some none`: every set was skipped or matched nothing (`result`
stayed `""`).  `none`: the decorator reduce threw. -/
def ruleSetLoop (arena : Arena) (matchingGroups : List TaggedRuleGroup)
    (num : Int) : List RuleSet → Option (Option String)
  | [] => some none
  | rs :: rest =>
    if rs.condition num then
      match (processedRules arena rs).find? (ruleMatches arena num) with
      | some r =>
        match emitLabel arena matchingGroups r num with
        | some s => some (some s)
        | none => none
      | none => ruleSetLoop arena matchingGroups num rest
    else ruleSetLoop arena matchingGroups num rest

/-- Lines 131-165 for one number, given the collected groups and rule sets:
run the loop and fall back to `defaultOutput` when `result` stayed `""`. -/
def evalNumber (arena : Arena) (matchingGroups : List TaggedRuleGroup)
    (num : Int) (sets : List RuleSet) (defaultOutput : Int → String) :
    Option String :=
  match ruleSetLoop arena matchingGroups num sets with
  | none => none
  | some none => some (defaultOutput num)
  | some (some s) => some s

/-- Lines 119-122: collect the groups returned by every group selector,
selector order then returned order (`sel(i) || []`). -/
def collectGroups (ruleGroupSelectors : List RuleGroupSelector) (num : Int) :
    List TaggedRuleGroup :=
  ruleGroupSelectors.flatMap (fun sel => (sel num).getD [])

/-- Lines 124-129: collect the rule sets returned by every rule selector. -/
def collectRuleSets (ruleSelectors : List RuleSelector) (num : Int) :
    List RuleSet :=
  ruleSelectors.flatMap (fun sel => (sel num).getD [])

/-- `applyRules` (source lines 115-166). -/
def applyRules (arena : Arena) (ruleGroupSelectors : List RuleGroupSelector)
    (ruleSelectors : List RuleSelector) (defaultOutput : Int → String)
    (num : Int) : Option String :=
  evalNumber arena (collectGroups ruleGroupSelectors num) num
    (collectRuleSets ruleSelectors num) defaultOutput

/-- The four accumulator arrays of source lines 94-97. -/
structure ExtractedPlugins where
  ruleGroupSelectors : List RuleGroupSelector
  ruleSelectors : List RuleSelector
  ruleGroupModifiers : List RuleGroupModifier
  resultFormatters : List ResultFormatter

/-- One iteration of the extraction loop (lines 100-113): push the plugin's
present fields onto the accumulators (an absent field contributes nothing, and
`push(...[])` of a present empty array also contributes nothing). -/
def extractStep (acc : ExtractedPlugins) (plugin : FizzBuzzPlugin) :
    ExtractedPlugins :=
  { ruleGroupSelectors := acc.ruleGroupSelectors ++ plugin.ruleGroupSelectors.getD []
    ruleSelectors := acc.ruleSelectors ++ plugin.ruleSelectors.getD []
    ruleGroupModifiers := acc.ruleGroupModifiers ++ plugin.ruleGroupModifiers.getD []
    resultFormatters := acc.resultFormatters ++ plugin.resultFormatters.getD [] }

/-- The whole extraction loop of `fizzBuzz` (lines 94-113). -/
def extractPlugins (plugins : List FizzBuzzPlugin) : ExtractedPlugins :=
  plugins.foldl extractStep
    { ruleGroupSelectors := []
      ruleSelectors := []
      ruleGroupModifiers := []
      resultFormatters := [] }

/-- Ceiling division for a positive divisor, the exact value of
`Math.ceil((a : real) / b)` at integral arguments: `⌈a/b⌉ = -⌊(-a)/b⌋`. -/
def ceilDiv (a b : Int) : Int :=
  -((-a).fdiv b)

/-- Source line 168 combined with `Array.from({ length })` (line 169), whose
`ToLength` coercion clamps a negative length to 0. -/
def sequenceLength (start endNum step : Int) : Nat :=
  (max 0 (ceilDiv (endNum - start + 1) step)).toNat

/-- Source lines 168-171: the numbers `start + index * step` fed to
`applyRules`. -/
def sequenceNumbers (start endNum step : Int) : List Int :=
  (List.range (sequenceLength start endNum step)).map
    (fun (index : Nat) => start + (index : Int) * step)

/-- Default `defaultOutput` parameter (line 91): `num.toString()`. -/
def defaultNumOutput (num : Int) : String :=
  toString num

/-- Default `resultFormatter` parameter (line 92): `results.join(' ')`. -/
def defaultFormatter (results : List String) : String :=
  String.intercalate " " results

/-- `fizzBuzz` (source lines 86-176): extract the plugin functions, evaluate
every number of the sequence, and hand the labels to the `resultFormatter`
parameter.  (The aggregated `resultFormatters` array is collected but line 173
uses the parameter.)  A `none` means an exception propagated out of the run. -/
def fizzBuzz (arena : Arena) (start endNum step : Int)
    (plugins : List FizzBuzzPlugin) (defaultOutput : Int → String)
    (resultFormatter : ResultFormatter) : Option String :=
  let extracted := extractPlugins plugins
  ((sequenceNumbers start endNum step).mapM
      (applyRules arena extracted.ruleGroupSelectors extracted.ruleSelectors
        defaultOutput)).map
    resultFormatter

/-- State-passing version of the rule-set loop, making the in-place mutation
of line 134 explicit: `Array.prototype.sort` sorts `ruleSet.rules` in place,
so every rule set whose condition held when the loop reached it ends the
evaluation with its `rules` array replaced by the sorted array (the `filter`
of line 135 builds a fresh array and does not write back).  Returns the loop
outcome together with the post-state of the rule-set list. -/
def ruleSetLoopST (arena : Arena) (matchingGroups : List TaggedRuleGroup)
    (num : Int) : List RuleSet → Option (Option String) × List RuleSet
  | [] => (some none, [])
  | rs :: rest =>
    if rs.condition num then
      let sortedArr := sortRules arena rs.rules
      let rsNew : RuleSet := { condition := rs.condition, rules := sortedArr }
      match (dedupAdjacent sortedArr).find? (ruleMatches arena num) with
      | some r =>
        match emitLabel arena matchingGroups r num with
        | some s => (some (some s), rsNew :: rest)
        | none => (none, rsNew :: rest)
      | none =>
        let p := ruleSetLoopST arena matchingGroups num rest
        (p.1, rsNew :: p.2)
    else
      let p := ruleSetLoopST arena matchingGroups num rest
      (p.1, rs :: p.2)

/-- Evaluation of one number the way the spec describes it: the first rule set
(in collection order) whose condition holds and whose processed rules yield a
match contributes the label of its first matching rule; otherwise the default
output.  Spec-side reformulation, to be compared with `evalNumber`. -/
def specEvalNumber (arena : Arena) (matchingGroups : List TaggedRuleGroup)
    (num : Int) (sets : List RuleSet) (defaultOutput : Int → String) :
    Option String :=
  match sets.find? (fun rs => rs.condition num &&
      (processedRules arena rs).any (ruleMatches arena num)) with
  | some rs =>
    match (processedRules arena rs).find? (ruleMatches arena num) with
    | some r => emitLabel arena matchingGroups r num
    | none => some (defaultOutput num)
  | none => some (defaultOutput num)

/-- Relation between a rule set before and after one evaluation: the condition
is untouched and the rules array is either untouched or replaced in place by
its stable priority sort — in both cases a permutation of the original. -/
def sortMutated (arena : Arena) (pre post : RuleSet) : Prop :=
  post.condition = pre.condition ∧ post.rules.Perm pre.rules ∧
    (post.rules = pre.rules ∨ post.rules = sortRules arena pre.rules)

/-- Agreement of two groups on everything except `selectBehavior`. -/
def groupAgreesExceptSB (g g2 : TaggedRuleGroup) : Prop :=
  g.tag = g2.tag ∧ g.rules = g2.rules ∧ g.decorators = g2.decorators ∧
    g.resultTransformer = g2.resultTransformer

/-- Pointwise agreement of two collected group lists except `selectBehavior`. -/
def groupsAgree (l l2 : List TaggedRuleGroup) : Prop :=
  List.Forall₂ groupAgreesExceptSB l l2

/-- Two group selectors whose collected output agrees except `selectBehavior`. -/
def groupSelAgrees (sel sel2 : RuleGroupSelector) : Prop :=
  ∀ num : Int, groupsAgree ((sel num).getD []) ((sel2 num).getD [])

/-- Two plugins that differ at most in every group's `selectBehavior` and in
the `ruleGroupModifiers` field. -/
def pluginAgreesExceptUnused (p p2 : FizzBuzzPlugin) : Prop :=
  List.Forall₂ groupSelAgrees (p.ruleGroupSelectors.getD [])
      (p2.ruleGroupSelectors.getD []) ∧
    p.ruleSelectors = p2.ruleSelectors ∧
    p.resultFormatters = p2.resultFormatters

/-- Agreement of two rules on every field except the rule's own
`resultTransformer`. -/
def ruleAgreesExceptRT (r r2 : FizzBuzzRule) : Prop :=
  r.evaluator = r2.evaluator ∧ r.condition = r2.condition ∧
    r.output = r2.output ∧ r.events = r2.events ∧ r.filter = r2.filter ∧
    r.priority = r2.priority

/-- Fixture helper: a rule with the given evaluator, output and priority and
every other field absent. -/
def mkRule (e : Option RuleEvaluator) (out : String) (p : Option Int) :
    FizzBuzzRule :=
  { evaluator := e, condition := none, output := out, events := [],
    filter := none, priority := p, resultTransformer := none }

/-- Fixture: an arena with no meaningful rules (no rule is ever selected). -/
def emptyArena : Arena := fun _ => mkRule none "" none

/-- Fixture for C1: rule 0 is R2 (priority 2), rule 1 is R1 (priority 1),
both always match. -/
def c1Arena : Arena := fun r =>
  if r = 0 then mkRule (some (fun _ => true)) "R2" (some 2)
  else mkRule (some (fun _ => true)) "R1" (some 1)

/-- Fixture for C1: one rule set listing R2 before R1. -/
def c1Set : RuleSet := { condition := fun _ => true, rules := [0, 1] }

/-- Fixture for C2: transformer T1 records its string and number arguments. -/
def c2T1 : ResultTransformer := fun s num => s ++ "+T1(" ++ toString num ++ ")"

/-- Fixture for C2: transformer T2 appends a marker. -/
def c2T2 : ResultTransformer := fun s _ => s ++ "+T2"

/-- Fixture for C2: first group containing rule 0, contributing T1. -/
def c2G1 : TaggedRuleGroup :=
  { tag := "G1", rules := [0], selectBehavior := SelectBehavior.all,
    decorators := none, resultTransformer := some c2T1 }

/-- Fixture for C2: second group containing rule 0, contributing T2. -/
def c2G2 : TaggedRuleGroup :=
  { tag := "G2", rules := [0], selectBehavior := SelectBehavior.all,
    decorators := none, resultTransformer := some c2T2 }

/-- Fixture for C2: rule 0 always matches with output `"out"`. -/
def c2Arena : Arena := fun _ => mkRule (some (fun _ => true)) "out" none

/-- Fixture for C2: a rule set selecting rule 0. -/
def c2Set : RuleSet := { condition := fun _ => true, rules := [0] }

/-- Fixture for the C2 witness: rule 0 always matches with output `"X"`. -/
def c2WArena : Arena := fun _ => mkRule (some (fun _ => true)) "X" none

/-- Fixture for C3: a decorator (it is never reached: the reduce crashes
first). -/
def c3Dec : RuleDecorator := fun rule => { rule with output := rule.output ++ "!" }

/-- Fixture for C3: rule 0 always matches with output `"X"`. -/
def c3Arena : Arena := fun _ => mkRule (some (fun _ => true)) "X" none

/-- Fixture for C3: a rule set selecting rule 0. -/
def c3Set : RuleSet := { condition := fun _ => true, rules := [0] }

/-- Fixture for C3: a group containing rule 0 with one decorator attached. -/
def c3Group : TaggedRuleGroup :=
  { tag := "G", rules := [0], selectBehavior := SelectBehavior.all,
    decorators := some [c3Dec], resultTransformer := none }

/-- Fixture for C3: the same group with no decorator. -/
def c3GroupNoDec : TaggedRuleGroup := { c3Group with decorators := none }

/-- Fixture for C4: rule 0 has priority 2, rule 1 has priority 1; neither ever
matches (both predicates absent), isolating the mutation performed by the
sort itself. -/
def c4Arena : Arena := fun r =>
  if r = 0 then mkRule none "A" (some 2) else mkRule none "B" (some 1)

/-- Fixture for C4: a rule set whose rules are out of priority order. -/
def c4Set : RuleSet := { condition := fun _ => true, rules := [0, 1] }

/-- Fixture for C6: rule 0 always matches but sits behind a false condition. -/
def c6Arena : Arena := fun r =>
  if r = 0 then mkRule (some (fun _ => true)) "M" none else mkRule none "N" none

/-- Fixture for C6: a rule set whose condition never holds. -/
def c6Set1 : RuleSet := { condition := fun _ => false, rules := [0] }

/-- Fixture for C6: an active rule set whose only rule never matches. -/
def c6Set2 : RuleSet := { condition := fun _ => true, rules := [1] }

/-- Fixture for C7: a concrete evaluator predicate. -/
def c7Eval : RuleEvaluator := fun num => decide (num % 3 = 0)

/-- Fixture for C7: a rule carrying `c7Eval`. -/
def c7Rule : FizzBuzzRule := mkRule (some c7Eval) "E" none

/-- Fixture for C7: rule 0 is malformed (neither evaluator nor condition). -/
def c7Arena : Arena := fun _ => mkRule none "never" none

/-- Fixture for C7: an active rule set containing only the malformed rule. -/
def c7Set : RuleSet := { condition := fun _ => true, rules := [0] }

/-- Fixture for C9: rule 0 always matches with output `"X"`. -/
def c9Arena : Arena := fun _ => mkRule (some (fun _ => true)) "X" none

/-- Fixture for C9: a group containing rule 0. -/
def c9Group : TaggedRuleGroup :=
  { tag := "G", rules := [0], selectBehavior := SelectBehavior.all,
    decorators := none, resultTransformer := none }

/-- Fixture for C9: the same group with a different `selectBehavior`. -/
def c9GroupB : TaggedRuleGroup := { c9Group with selectBehavior := SelectBehavior.last }

/-- Fixture for C9: a group selector returning `c9Group`. -/
def c9Sel : RuleGroupSelector := fun _ => some [c9Group]

/-- Fixture for C9: a group selector returning `c9GroupB`. -/
def c9SelB : RuleGroupSelector := fun _ => some [c9GroupB]

/-- Fixture for C9: a rule selector activating rule 0 on even numbers. -/
def c9RSel : RuleSelector := fun _ =>
  some [{ condition := fun num => decide (num % 2 = 0), rules := [0] }]

/-- Fixture for C9: a group modifier (never invoked by the pipeline). -/
def c9Mod : RuleGroupModifier := fun _ => []

/-- Fixture for C9: plugin without modifiers, selecting `c9Group`. -/
def c9Plugin : FizzBuzzPlugin :=
  { ruleGroupSelectors := some [c9Sel], ruleSelectors := some [c9RSel],
    ruleGroupModifiers := none, resultFormatters := none }

/-- Fixture for C9: plugin differing from `c9Plugin` only in the groups'
`selectBehavior` and in the `ruleGroupModifiers` field. -/
def c9PluginB : FizzBuzzPlugin :=
  { ruleGroupSelectors := some [c9SelB], ruleSelectors := some [c9RSel],
    ruleGroupModifiers := some [c9Mod], resultFormatters := none }

/-- Fixture for C10: a rule with no transformer of its own. -/
def c10Rule : FizzBuzzRule := mkRule (some (fun _ => true)) "X" none

/-- Fixture for C10: the same rule with a `resultTransformer` of its own. -/
def c10RuleB : FizzBuzzRule :=
  { c10Rule with resultTransformer := some (fun s num => s ++ "#" ++ toString num) }

/-- Fixture for C10: arena of `c10Rule`. -/
def c10ArenaA : Arena := fun _ => c10Rule

/-- Fixture for C10: arena of `c10RuleB`. -/
def c10ArenaB : Arena := fun _ => c10RuleB

/-- Fixture for C10: a plugin whose rule selector activates rule 0. -/
def c10Plugin : FizzBuzzPlugin :=
  { ruleGroupSelectors := none,
    ruleSelectors := some [fun _ => some [{ condition := fun _ => true, rules := [0] }]],
    ruleGroupModifiers := none, resultFormatters := none }

theorem insertRule_perm (arena : Arena) (r : RuleId) (l : List RuleId) :
    (insertRule arena r l).Perm (r :: l) := by
  induction l with
  | nil => simp [insertRule]
  | cons s t ih =>
    simp only [insertRule]
    by_cases h : priorityOf arena s < priorityOf arena r
    · rw [if_pos h]
      exact (ih.cons s).trans (List.Perm.swap r s t)
    · rw [if_neg h]

theorem sortRules_perm (arena : Arena) (l : List RuleId) :
    (sortRules arena l).Perm l := by
  induction l with
  | nil => simp [sortRules]
  | cons r t ih =>
    simp only [sortRules]
    exact (insertRule_perm arena r (sortRules arena t)).trans (ih.cons r)

theorem insertRule_pairwise (arena : Arena) (r : RuleId) (l : List RuleId)
    (h : l.Pairwise (fun a b => priorityOf arena a ≤ priorityOf arena b)) :
    (insertRule arena r l).Pairwise
      (fun a b => priorityOf arena a ≤ priorityOf arena b) := by
  induction l with
  | nil => simp [insertRule]
  | cons s t ih =>
    rw [List.pairwise_cons] at h
    obtain ⟨hs, ht⟩ := h
    simp only [insertRule]
    by_cases hlt : priorityOf arena s < priorityOf arena r
    · rw [if_pos hlt, List.pairwise_cons]
      refine ⟨?_, ih ht⟩
      intro b hb
      rcases List.mem_cons.mp ((insertRule_perm arena r t).mem_iff.mp hb) with h1 | h2
      · subst h1; exact le_of_lt hlt
      · exact hs b h2
    · rw [if_neg hlt, List.pairwise_cons]
      refine ⟨?_, List.pairwise_cons.mpr ⟨hs, ht⟩⟩
      intro b hb
      rcases List.mem_cons.mp hb with h1 | h2
      · subst h1; exact le_of_not_lt hlt
      · exact le_trans (le_of_not_lt hlt) (hs b h2)

theorem sortRules_pairwise (arena : Arena) (l : List RuleId) :
    (sortRules arena l).Pairwise
      (fun a b => priorityOf arena a ≤ priorityOf arena b) := by
  induction l with
  | nil => simp [sortRules]
  | cons r t ih =>
    simp only [sortRules]
    exact insertRule_pairwise arena r (sortRules arena t) ih

theorem insertRule_filter (arena : Arena) (r : RuleId) (p : Int)
    (l : List RuleId) :
    (insertRule arena r l).filter (fun x => decide (priorityOf arena x = p)) =
      (if priorityOf arena r = p
       then r :: l.filter (fun x => decide (priorityOf arena x = p))
       else l.filter (fun x => decide (priorityOf arena x = p))) := by
  induction l with
  | nil => by_cases hr : priorityOf arena r = p <;> simp [insertRule, hr]
  | cons s t ih =>
    simp only [insertRule]
    by_cases hlt : priorityOf arena s < priorityOf arena r
    · rw [if_pos hlt]
      by_cases hr : priorityOf arena r = p
      · have hs : ¬ priorityOf arena s = p := by omega
        rw [if_pos hr] at ih ⊢
        simp [List.filter_cons, hs, ih]
      · rw [if_neg hr] at ih ⊢
        by_cases hs : priorityOf arena s = p <;> simp [List.filter_cons, hs, ih]
    · rw [if_neg hlt]
      by_cases hr : priorityOf arena r = p
      · rw [if_pos hr]
        simp [List.filter_cons, hr]
      · rw [if_neg hr]
        simp [List.filter_cons, hr]

theorem sortRules_filter (arena : Arena) (p : Int) (l : List RuleId) :
    (sortRules arena l).filter (fun x => decide (priorityOf arena x = p)) =
      l.filter (fun x => decide (priorityOf arena x = p)) := by
  induction l with
  | nil => simp [sortRules]
  | cons r t ih =>
    simp only [sortRules]
    rw [insertRule_filter]
    by_cases hr : priorityOf arena r = p
    · rw [if_pos hr]
      simp [List.filter_cons, hr, ih]
    · rw [if_neg hr]
      simp [List.filter_cons, hr, ih]

theorem dedupAdjacent_sublist (l : List RuleId) :
    (dedupAdjacent l).Sublist l := by
  induction l with
  | nil => simp [dedupAdjacent]
  | cons r t ih =>
    cases t with
    | nil => simp [dedupAdjacent]
    | cons s u =>
      simp only [dedupAdjacent]
      by_cases h : r = s
      · rw [if_pos h]
        exact ih.cons r
      · rw [if_neg h]
        exact ih.cons₂ r

theorem mem_processedRules (arena : Arena) (rs : RuleSet) (r : RuleId)
    (h : r ∈ processedRules arena rs) : r ∈ rs.rules := by
  have h1 : r ∈ sortRules arena rs.rules :=
    (dedupAdjacent_sublist (sortRules arena rs.rules)).subset h
  exact (sortRules_perm arena rs.rules).mem_iff.mp h1

theorem ruleSetLoop_cons_false (arena : Arena) (gs : List TaggedRuleGroup)
    (num : Int) (rs : RuleSet) (rest : List RuleSet)
    (hc : ¬ rs.condition num = true) :
    ruleSetLoop arena gs num (rs :: rest) = ruleSetLoop arena gs num rest := by
  conv_lhs => unfold ruleSetLoop
  rw [if_neg hc]

theorem ruleSetLoop_cons_nomatch (arena : Arena) (gs : List TaggedRuleGroup)
    (num : Int) (rs : RuleSet) (rest : List RuleSet)
    (hc : rs.condition num = true)
    (hf : (processedRules arena rs).find? (ruleMatches arena num) = none) :
    ruleSetLoop arena gs num (rs :: rest) = ruleSetLoop arena gs num rest := by
  conv_lhs => unfold ruleSetLoop
  rw [if_pos hc, hf]

theorem ruleSetLoop_cons_match (arena : Arena) (gs : List TaggedRuleGroup)
    (num : Int) (rs : RuleSet) (rest : List RuleSet) (r : RuleId)
    (hc : rs.condition num = true)
    (hf : (processedRules arena rs).find? (ruleMatches arena num) = some r) :
    ruleSetLoop arena gs num (rs :: rest) =
      match emitLabel arena gs r num with
      | some s => some (some s)
      | none => none := by
  conv_lhs => unfold ruleSetLoop
  rw [if_pos hc, hf]

theorem specEvalNumber_cons_skip (arena : Arena) (gs : List TaggedRuleGroup)
    (num : Int) (rs : RuleSet) (rest : List RuleSet) (d : Int → String)
    (hpred : ¬ (fun rs : RuleSet => rs.condition num &&
      (processedRules arena rs).any (ruleMatches arena num)) rs = true) :
    specEvalNumber arena gs num (rs :: rest) d =
      specEvalNumber arena gs num rest d := by
  unfold specEvalNumber
  rw [List.find?_cons_of_neg rest hpred]

theorem evalNumber_eq_specEvalNumber (arena : Arena)
    (gs : List TaggedRuleGroup) (num : Int) (sets : List RuleSet)
    (d : Int → String) :
    evalNumber arena gs num sets d = specEvalNumber arena gs num sets d := by
  induction sets with
  | nil => rfl
  | cons rs rest ih =>
    by_cases hc : rs.condition num
    · cases hf : (processedRules arena rs).find? (ruleMatches arena num) with
      | some r =>
        have hany : (processedRules arena rs).any (ruleMatches arena num) = true :=
          List.any_eq_true.mpr ⟨r, List.mem_of_find?_eq_some hf, List.find?_some hf⟩
        have hpred : (fun rs : RuleSet => rs.condition num &&
            (processedRules arena rs).any (ruleMatches arena num)) rs = true := by
          simp only [hc, hany, Bool.and_self]
        unfold evalNumber
        rw [ruleSetLoop_cons_match arena gs num rs rest r hc hf]
        unfold specEvalNumber
        rw [List.find?_cons_of_pos rest hpred]
        simp only [hf]
        cases he : emitLabel arena gs r num <;> simp
      | none =>
        have hpred : ¬ (fun rs : RuleSet => rs.condition num &&
            (processedRules arena rs).any (ruleMatches arena num)) rs = true := by
          simp only [Bool.and_eq_true, not_and]
          intro _ hcon
          rcases List.any_eq_true.mp hcon with ⟨x, hx, hpx⟩
          exact (List.find?_eq_none.mp hf x hx) hpx
        unfold evalNumber
        rw [ruleSetLoop_cons_nomatch arena gs num rs rest hc hf,
          specEvalNumber_cons_skip arena gs num rs rest d hpred]
        exact ih
    · have hpred : ¬ (fun rs : RuleSet => rs.condition num &&
          (processedRules arena rs).any (ruleMatches arena num)) rs = true := by
        simp only [Bool.and_eq_true, not_and]
        intro hcon
        exact absurd hcon hc
      unfold evalNumber
      rw [ruleSetLoop_cons_false arena gs num rs rest hc,
        specEvalNumber_cons_skip arena gs num rs rest d hpred]
      exact ih

theorem ruleSetLoopST_fst (arena : Arena) (gs : List TaggedRuleGroup)
    (num : Int) (sets : List RuleSet) :
    (ruleSetLoopST arena gs num sets).1 = ruleSetLoop arena gs num sets := by
  induction sets with
  | nil => rfl
  | cons rs rest ih =>
    conv_lhs => unfold ruleSetLoopST
    conv_rhs => unfold ruleSetLoop
    by_cases hc : rs.condition num
    · rw [if_pos hc, if_pos hc]
      simp only [processedRules]
      cases hf : (dedupAdjacent (sortRules arena rs.rules)).find?
          (ruleMatches arena num) with
      | some r => cases he : emitLabel arena gs r num <;> simp [he]
      | none => simpa using ih
    · rw [if_neg hc, if_neg hc]
      simpa using ih

theorem sortMutated_refl (arena : Arena) (rs : RuleSet) :
    sortMutated arena rs rs :=
  ⟨rfl, List.Perm.refl rs.rules, Or.inl rfl⟩

theorem sortMutated_sorted (arena : Arena) (rs : RuleSet) :
    sortMutated arena rs
      { condition := rs.condition, rules := sortRules arena rs.rules } :=
  ⟨rfl, sortRules_perm arena rs.rules, Or.inr rfl⟩

theorem ruleSetLoopST_snd (arena : Arena) (gs : List TaggedRuleGroup)
    (num : Int) (sets : List RuleSet) :
    List.Forall₂ (sortMutated arena) sets (ruleSetLoopST arena gs num sets).2 := by
  induction sets with
  | nil => exact List.Forall₂.nil
  | cons rs rest ih =>
    conv_rhs => unfold ruleSetLoopST
    by_cases hc : rs.condition num
    · rw [if_pos hc]
      cases hf : (dedupAdjacent (sortRules arena rs.rules)).find?
          (ruleMatches arena num) with
      | some r =>
        cases he : emitLabel arena gs r num with
        | some s =>
          simp only [hf, he]
          exact List.Forall₂.cons (sortMutated_sorted arena rs)
            (List.forall₂_same.mpr (fun x _ => sortMutated_refl arena x))
        | none =>
          simp only [hf, he]
          exact List.Forall₂.cons (sortMutated_sorted arena rs)
            (List.forall₂_same.mpr (fun x _ => sortMutated_refl arena x))
      | none =>
        simp only [hf]
        exact List.Forall₂.cons (sortMutated_sorted arena rs) ih
    · rw [if_neg hc]
      exact List.Forall₂.cons (sortMutated_refl arena rs) ih

theorem ceilDiv_bounds (a b : Int) (hb : 0 < b) :
    a ≤ b * ceilDiv a b ∧ b * ceilDiv a b < a + b := by
  unfold ceilDiv
  have h1 : 0 ≤ (-a) % b := Int.emod_nonneg (-a) (by omega)
  have h2 : (-a) % b < b := Int.emod_lt_of_pos (-a) hb
  have h3 : b * ((-a) / b) + (-a) % b = -a := Int.ediv_add_emod (-a) b
  rw [Int.fdiv_eq_ediv (-a) (le_of_lt hb), mul_neg]
  constructor <;> linarith

theorem ceilDiv_nonneg (a b : Int) (hb : 0 < b) (ha : 0 ≤ a) :
    0 ≤ ceilDiv a b := by
  have h1 := (ceilDiv_bounds a b hb).1
  nlinarith

theorem sequenceNumbers_length (start endNum step : Int) (hstep : 0 < step)
    (hrange : start ≤ endNum + 1) :
    ((sequenceNumbers start endNum step).length : Int) =
      ceilDiv (endNum - start + 1) step := by
  unfold sequenceNumbers sequenceLength
  rw [List.length_map, List.length_range]
  have h0 : 0 ≤ ceilDiv (endNum - start + 1) step :=
    ceilDiv_nonneg (endNum - start + 1) step hstep (by omega)
  rw [max_eq_right h0, Int.toNat_of_nonneg h0]

theorem sequenceNumbers_getElem (start endNum step : Int) (i : Nat)
    (h : i < (sequenceNumbers start endNum step).length) :
    (sequenceNumbers start endNum step)[i]? = some (start + (i : Int) * step) := by
  unfold sequenceNumbers at h ⊢
  rw [List.length_map, List.length_range] at h
  rw [List.getElem?_map, List.getElem?_range h]
  rfl

theorem ruleSetLoop_none_of_nomatch (arena : Arena)
    (gs : List TaggedRuleGroup) (num : Int) :
    ∀ sets : List RuleSet,
      (∀ rs ∈ sets, rs.condition num = true →
        ∀ r ∈ rs.rules, ruleMatches arena num r = false) →
      ruleSetLoop arena gs num sets = some none := by
  intro sets
  induction sets with
  | nil => intro _; rfl
  | cons rs rest ih =>
    intro h
    by_cases hc : rs.condition num
    · have hf : (processedRules arena rs).find? (ruleMatches arena num) = none := by
        rw [List.find?_eq_none]
        intro r hr
        have hfalse := h rs (List.mem_cons_self rs rest) hc r
          (mem_processedRules arena rs r hr)
        simp [hfalse]
      rw [ruleSetLoop_cons_nomatch arena gs num rs rest hc hf]
      exact ih (fun rs2 h2 => h rs2 (List.mem_cons_of_mem rs h2))
    · rw [ruleSetLoop_cons_false arena gs num rs rest hc]
      exact ih (fun rs2 h2 => h rs2 (List.mem_cons_of_mem rs h2))

theorem extractPlugins_foldl (plugins : List FizzBuzzPlugin)
    (acc : ExtractedPlugins) :
    plugins.foldl extractStep acc =
      { ruleGroupSelectors := acc.ruleGroupSelectors ++
          plugins.flatMap (fun p => p.ruleGroupSelectors.getD [])
        ruleSelectors := acc.ruleSelectors ++
          plugins.flatMap (fun p => p.ruleSelectors.getD [])
        ruleGroupModifiers := acc.ruleGroupModifiers ++
          plugins.flatMap (fun p => p.ruleGroupModifiers.getD [])
        resultFormatters := acc.resultFormatters ++
          plugins.flatMap (fun p => p.resultFormatters.getD []) } := by
  induction plugins generalizing acc with
  | nil =>
    cases acc
    simp
  | cons p ps ih =>
    rw [List.foldl_cons, ih]
    simp [extractStep, List.flatMap_cons]

theorem find?_self_filter (p : TaggedRuleGroup → Bool)
    (l : List TaggedRuleGroup) : (l.filter p).find? p = l.find? p := by
  induction l with
  | nil => rfl
  | cons g t ih =>
    by_cases h : p g
    · rw [List.filter_cons, if_pos h, List.find?_cons_of_pos t h,
        List.find?_cons_of_pos (t.filter p) h]
    · rw [List.filter_cons, if_neg h, List.find?_cons_of_neg t h, ih]

theorem groupsAgree_filter (r : RuleId) (gs gs2 : List TaggedRuleGroup)
    (h : groupsAgree gs gs2) :
    groupsAgree (gs.filter (fun g => g.rules.contains r))
      (gs2.filter (fun g => g.rules.contains r)) := by
  induction h with
  | nil => exact List.Forall₂.nil
  | @cons a b l1 l2 h1 h2 ih =>
    rw [List.filter_cons, List.filter_cons]
    by_cases hc : b.rules.contains r = true
    · have hca : a.rules.contains r = true := by rw [h1.2.1]; exact hc
      rw [if_pos hca, if_pos hc]
      exact List.Forall₂.cons h1 ih
    · have hca : ¬ a.rules.contains r = true := by rw [h1.2.1]; exact hc
      rw [if_neg hca, if_neg hc]
      exact ih

theorem getRuleTag_congr (r : RuleId) (gs gs2 : List TaggedRuleGroup)
    (h : groupsAgree gs gs2) : getRuleTag r gs = getRuleTag r gs2 := by
  induction h with
  | nil => rfl
  | @cons a b l1 l2 h1 h2 ih =>
    unfold getRuleTag at ih ⊢
    by_cases hc : b.rules.contains r = true
    · have hca : a.rules.contains r = true := by rw [h1.2.1]; exact hc
      rw [List.find?_cons_of_pos l1 hca, List.find?_cons_of_pos l2 hc]
      exact h1.1
    · have hca : ¬ a.rules.contains r = true := by rw [h1.2.1]; exact hc
      rw [List.find?_cons_of_neg l1 hca, List.find?_cons_of_neg l2 hc]
      exact ih

theorem transformers_congr (gs gs2 : List TaggedRuleGroup)
    (h : groupsAgree gs gs2) :
    gs.flatMap (fun g => g.resultTransformer.toList) =
      gs2.flatMap (fun g => g.resultTransformer.toList) := by
  induction h with
  | nil => rfl
  | cons h1 h2 ih => simp only [List.flatMap_cons, h1.2.2.2, ih]

theorem decorators_congr (gs gs2 : List TaggedRuleGroup)
    (h : groupsAgree gs gs2) :
    gs.flatMap (fun g => g.decorators.getD []) =
      gs2.flatMap (fun g => g.decorators.getD []) := by
  induction h with
  | nil => rfl
  | cons h1 h2 ih => simp only [List.flatMap_cons, h1.2.2.1, ih]

theorem applyResultTransformer_congr (num : Int)
    (gs gs2 : List TaggedRuleGroup) (h : groupsAgree gs gs2) (s : String) :
    applyResultTransformer s num gs = applyResultTransformer s num gs2 := by
  unfold applyResultTransformer
  rw [transformers_congr gs gs2 h]

theorem emitLabel_congr (arena : Arena) (r : RuleId) (num : Int)
    (gs gs2 : List TaggedRuleGroup) (h : groupsAgree gs gs2) :
    emitLabel arena gs r num = emitLabel arena gs2 r num := by
  unfold emitLabel
  have hf := groupsAgree_filter r gs gs2 h
  simp only [decorators_congr _ _ hf, getRuleTag_congr r _ _ hf,
    applyResultTransformer_congr num _ _ hf]

theorem ruleSetLoop_congr (arena : Arena) (num : Int) (sets : List RuleSet)
    (gs gs2 : List TaggedRuleGroup) (h : groupsAgree gs gs2) :
    ruleSetLoop arena gs num sets = ruleSetLoop arena gs2 num sets := by
  induction sets with
  | nil => rfl
  | cons rs rest ih =>
    by_cases hc : rs.condition num
    · cases hf : (processedRules arena rs).find? (ruleMatches arena num) with
      | some r =>
        rw [ruleSetLoop_cons_match arena gs num rs rest r hc hf,
          ruleSetLoop_cons_match arena gs2 num rs rest r hc hf,
          emitLabel_congr arena r num gs gs2 h]
      | none =>
        rw [ruleSetLoop_cons_nomatch arena gs num rs rest hc hf,
          ruleSetLoop_cons_nomatch arena gs2 num rs rest hc hf]
        exact ih
    · rw [ruleSetLoop_cons_false arena gs num rs rest hc,
        ruleSetLoop_cons_false arena gs2 num rs rest hc]
      exact ih

theorem evalNumber_congr (arena : Arena) (num : Int) (sets : List RuleSet)
    (d : Int → String) (gs gs2 : List TaggedRuleGroup)
    (h : groupsAgree gs gs2) :
    evalNumber arena gs num sets d = evalNumber arena gs2 num sets d := by
  unfold evalNumber
  rw [ruleSetLoop_congr arena num sets gs gs2 h]

theorem collectGroups_congr (sels sels2 : List RuleGroupSelector)
    (h : List.Forall₂ groupSelAgrees sels sels2) (num : Int) :
    groupsAgree (collectGroups sels num) (collectGroups sels2 num) := by
  induction h with
  | nil => exact List.Forall₂.nil
  | cons h1 h2 ih =>
    unfold collectGroups at ih ⊢
    rw [List.flatMap_cons, List.flatMap_cons]
    exact List.rel_append (h1 num) ih

theorem priorityOf_congr (arena arena2 : Arena)
    (h : ∀ rid, ruleAgreesExceptRT (arena rid) (arena2 rid)) (r : RuleId) :
    priorityOf arena r = priorityOf arena2 r := by
  unfold priorityOf
  rw [(h r).2.2.2.2.2]

theorem evaluateRule_congr (r r2 : FizzBuzzRule) (h : ruleAgreesExceptRT r r2)
    (num : Int) : evaluateRule r num = evaluateRule r2 num := by
  unfold evaluateRule
  rw [h.1, h.2.1]

theorem passesFilter_congr (r r2 : FizzBuzzRule) (h : ruleAgreesExceptRT r r2)
    (num : Int) : passesFilter r num = passesFilter r2 num := by
  unfold passesFilter
  rw [h.2.2.2.2.1]

theorem ruleMatches_congr (arena arena2 : Arena)
    (h : ∀ rid, ruleAgreesExceptRT (arena rid) (arena2 rid)) (num : Int)
    (r : RuleId) : ruleMatches arena num r = ruleMatches arena2 num r := by
  unfold ruleMatches
  rw [passesFilter_congr _ _ (h r), evaluateRule_congr _ _ (h r)]

theorem insertRule_congr (arena arena2 : Arena)
    (h : ∀ rid, ruleAgreesExceptRT (arena rid) (arena2 rid)) (r : RuleId)
    (l : List RuleId) : insertRule arena r l = insertRule arena2 r l := by
  induction l with
  | nil => rfl
  | cons s t ih =>
    unfold insertRule
    rw [priorityOf_congr arena arena2 h s, priorityOf_congr arena arena2 h r, ih]

theorem sortRules_congr (arena arena2 : Arena)
    (h : ∀ rid, ruleAgreesExceptRT (arena rid) (arena2 rid))
    (l : List RuleId) : sortRules arena l = sortRules arena2 l := by
  induction l with
  | nil => rfl
  | cons r t ih =>
    unfold sortRules
    rw [ih, insertRule_congr arena arena2 h]

theorem emitLabel_eq (arena : Arena) (gs : List TaggedRuleGroup)
    (r : RuleId) (num : Int) :
    emitLabel arena gs r num =
      (reduceApplyDecorators (arena r)
          ((gs.filter (fun group => group.rules.contains r)).flatMap
            (fun group => group.decorators.getD []))).map
        (fun modifiedRule =>
          "[" ++ getRuleTag r (gs.filter (fun group => group.rules.contains r)) ++
            ": " ++ applyResultTransformer modifiedRule.output num
              (gs.filter (fun group => group.rules.contains r)) ++ "]") := rfl

theorem emitLabel_arena_congr (arena arena2 : Arena)
    (h : ∀ rid, ruleAgreesExceptRT (arena rid) (arena2 rid))
    (gs : List TaggedRuleGroup) (r : RuleId) (num : Int) :
    emitLabel arena gs r num = emitLabel arena2 gs r num := by
  rw [emitLabel_eq, emitLabel_eq]
  cases hd : (gs.filter (fun group => group.rules.contains r)).flatMap
      (fun group => group.decorators.getD []) with
  | nil =>
    unfold reduceApplyDecorators
    rw [Option.map_some', Option.map_some', (h r).2.2.1]
  | cons d ds =>
    unfold reduceApplyDecorators
    rfl

theorem ruleSetLoop_arena_congr (arena arena2 : Arena)
    (h : ∀ rid, ruleAgreesExceptRT (arena rid) (arena2 rid))
    (gs : List TaggedRuleGroup) (num : Int) (sets : List RuleSet) :
    ruleSetLoop arena gs num sets = ruleSetLoop arena2 gs num sets := by
  have hm : ruleMatches arena num = ruleMatches arena2 num :=
    funext (ruleMatches_congr arena arena2 h num)
  induction sets with
  | nil => rfl
  | cons rs rest ih =>
    have hp : processedRules arena rs = processedRules arena2 rs := by
      unfold processedRules
      rw [sortRules_congr arena arena2 h]
    by_cases hc : rs.condition num
    · cases hf : (processedRules arena2 rs).find? (ruleMatches arena2 num) with
      | some r =>
        have hf1 : (processedRules arena rs).find? (ruleMatches arena num) =
            some r := by rw [hp, hm]; exact hf
        rw [ruleSetLoop_cons_match arena gs num rs rest r hc hf1,
          ruleSetLoop_cons_match arena2 gs num rs rest r hc hf,
          emitLabel_arena_congr arena arena2 h gs r num]
      | none =>
        have hf1 : (processedRules arena rs).find? (ruleMatches arena num) =
            none := by rw [hp, hm]; exact hf
        rw [ruleSetLoop_cons_nomatch arena gs num rs rest hc hf1,
          ruleSetLoop_cons_nomatch arena2 gs num rs rest hc hf]
        exact ih
    · rw [ruleSetLoop_cons_false arena gs num rs rest hc,
        ruleSetLoop_cons_false arena2 gs num rs rest hc]
      exact ih

theorem mapM_option_congr {α β : Type} (f g : α → Option β) (l : List α)
    (h : ∀ x ∈ l, f x = g x) : l.mapM f = l.mapM g := by
  induction l with
  | nil => rfl
  | cons x xs ih =>
    rw [List.mapM_cons, List.mapM_cons, h x (List.mem_cons_self x xs),
      ih (fun y hy => h y (List.mem_cons_of_mem x hy))]

theorem selectors_flatMap_agrees (ps ps2 : List FizzBuzzPlugin)
    (h : List.Forall₂ pluginAgreesExceptUnused ps ps2) :
    List.Forall₂ groupSelAgrees
      (ps.flatMap (fun p => p.ruleGroupSelectors.getD []))
      (ps2.flatMap (fun p => p.ruleGroupSelectors.getD [])) := by
  induction h with
  | nil => exact List.Forall₂.nil
  | @cons a b l1 l2 h1 h2 ih =>
    rw [List.flatMap_cons, List.flatMap_cons]
    exact List.rel_append h1.1 ih

theorem ruleSelectors_flatMap_eq (ps ps2 : List FizzBuzzPlugin)
    (h : List.Forall₂ pluginAgreesExceptUnused ps ps2) :
    ps.flatMap (fun p => p.ruleSelectors.getD []) =
      ps2.flatMap (fun p => p.ruleSelectors.getD []) := by
  induction h with
  | nil => rfl
  | @cons a b l1 l2 h1 h2 ih =>
    rw [List.flatMap_cons, List.flatMap_cons, h1.2.1, ih]

theorem getRuleTag_filter_self (r : RuleId) (gs : List TaggedRuleGroup) :
    getRuleTag r (gs.filter (fun group => group.rules.contains r)) =
      getRuleTag r gs := by
  unfold getRuleTag
  rw [find?_self_filter]

theorem extractPlugins_gsels (plugins : List FizzBuzzPlugin) :
    (extractPlugins plugins).ruleGroupSelectors =
      plugins.flatMap (fun p => p.ruleGroupSelectors.getD []) := by
  unfold extractPlugins
  rw [extractPlugins_foldl]
  simp

theorem extractPlugins_rsels (plugins : List FizzBuzzPlugin) :
    (extractPlugins plugins).ruleSelectors =
      plugins.flatMap (fun p => p.ruleSelectors.getD []) := by
  unfold extractPlugins
  rw [extractPlugins_foldl]
  simp

theorem fizzBuzz_eq (arena : Arena) (start endNum step : Int)
    (plugins : List FizzBuzzPlugin) (d : Int → String)
    (fmt : ResultFormatter) :
    fizzBuzz arena start endNum step plugins d fmt =
      ((sequenceNumbers start endNum step).mapM
          (applyRules arena (extractPlugins plugins).ruleGroupSelectors
            (extractPlugins plugins).ruleSelectors d)).map fmt := rfl

/-- Claim C1: for every number and every collected list of rule sets, the
evaluation is equivalent to: take the first rule set (in collection order)
whose condition holds for the number and whose processed rules (stable
priority sort, then adjacent-duplicate removal) contain a rule passing its
filter and matching, and emit the label of the first such rule — so at most
one rule per rule set and at most one rule set contribute.  The sort is
ascending by priority (0 when absent) and stable (equal priorities keep the
original relative order, stated by key-filter preservation), the duplicate
removal is adjacent-only, and with non-duplicate rules R1 (priority 1,
listed second) and R2 (priority 2, listed first) both matching 5, R1's
output wins. -/
theorem C1_rule_pipeline :
    (∀ (arena : Arena) (gs : List TaggedRuleGroup) (num : Int)
        (sets : List RuleSet) (d : Int → String),
        evalNumber arena gs num sets d = specEvalNumber arena gs num sets d) ∧
    (∀ (arena : Arena) (l : List RuleId),
        (sortRules arena l).Pairwise
          (fun a b => priorityOf arena a ≤ priorityOf arena b)) ∧
    (∀ (arena : Arena) (p : Int) (l : List RuleId),
        (sortRules arena l).filter (fun x => decide (priorityOf arena x = p)) =
          l.filter (fun x => decide (priorityOf arena x = p))) ∧
    dedupAdjacent [0, 0, 1, 0] = [0, 1, 0] ∧
    evalNumber c1Arena [] 5 [c1Set] defaultNumOutput = some "[Default: R1]" :=
  ⟨evalNumber_eq_specEvalNumber, sortRules_pairwise, sortRules_filter,
    by decide, by decide⟩

/-- Claim C2: whenever a matching rule emits a label, that label is exactly
"[" ++ tag ++ ": " ++ body ++ "]", where tag is the tag of the first
collected group containing the rule by reference (the literal "Default" when
no collected group contains it) and body is the left fold of the
transformers contributed by the containing groups, in group order, over the
rule's output, each transformer receiving the previous string and the
number; concretely, with transformers [T1, T2] the body is
T2 (T1 output num) num. -/
theorem C2_label_construction :
    (∀ (arena : Arena) (gs : List TaggedRuleGroup) (r : RuleId) (num : Int)
        (s : String),
        emitLabel arena gs r num = some s →
        s = "[" ++ getRuleTag r gs ++ ": " ++
          ((gs.filter (fun g => g.rules.contains r)).flatMap
              (fun g => g.resultTransformer.toList)).foldl
            (fun acc t => t acc num) (arena r).output ++ "]") ∧
    evalNumber c2Arena [c2G1, c2G2] 7 [c2Set] defaultNumOutput =
      some ("[G1: " ++ c2T2 (c2T1 "out" 7) 7 ++ "]") := by
  constructor
  · intro arena gs r num s hs
    rw [emitLabel_eq] at hs
    cases hd : (gs.filter (fun group => group.rules.contains r)).flatMap
        (fun group => group.decorators.getD []) with
    | cons d ds =>
      rw [hd] at hs
      exact absurd hs (by simp [reduceApplyDecorators])
    | nil =>
      rw [hd] at hs
      unfold reduceApplyDecorators at hs
      rw [Option.map_some'] at hs
      have hlab := Option.some.inj hs
      rw [← hlab, getRuleTag_filter_self]
      rfl
  · decide

/-- C2 witness: the general label-shape statement applied at a concrete
matching rule contained in no group. -/
theorem C2_label_construction_witness :
    "[Default: X]" = "[" ++ getRuleTag 0 [] ++ ": " ++
      ((([] : List TaggedRuleGroup).filter (fun g => g.rules.contains 0)).flatMap
          (fun g => g.resultTransformer.toList)).foldl
        (fun acc t => t acc 3) (c2WArena 0).output ++ "]" :=
  C2_label_construction.1 c2WArena [] 0 3 "[Default: X]" (by decide)

/-- Claim C3 (code bug): the spec says the decorators contributed by the
containing groups are folded left over the rule, but line 145 of the source
passes `applyDecorators` as the callback of `Array.prototype.reduce`, so it
receives one decorator function where it expects an array and calls
`.reduce` on it — a TypeError as soon as any decorator is attached.  With a
decorator attached the evaluation crashes (`none`); without it the same
input succeeds; the crashing reduce is `reduceApplyDecorators`, while the
helper `applyDecorators` itself folds as the spec describes. -/
theorem C3_decorator_crash :
    evalNumber c3Arena [c3Group] 4 [c3Set] defaultNumOutput = none ∧
    evalNumber c3Arena [c3GroupNoDec] 4 [c3Set] defaultNumOutput =
      some "[G: X]" ∧
    reduceApplyDecorators (c3Arena 0) [c3Dec] = none ∧
    applyDecorators (c3Arena 0) [c3Dec] = c3Dec (c3Arena 0) :=
  ⟨by decide, by decide, rfl, rfl⟩

/-- Claim C4 counterexample: evaluating number 5 against a rule set whose
rules [0, 1] are out of priority order leaves the rule set with rules
[1, 0] — the rules sequence (its order) is not unchanged. -/
theorem C4_counterexample :
    (ruleSetLoopST c4Arena [] 5 [c4Set]).2.map (fun rs => rs.rules) =
      [[1, 0]] ∧
    c4Set.rules = [0, 1] ∧ ([[1, 0]] : List (List RuleId)) ≠ [[0, 1]] :=
  ⟨by decide, rfl, by decide⟩

/-- Claim C4 (amended): during evaluation of a number all supplied entities
are read-only except that `Array.prototype.sort` reorders, in place, the
rules array of every rule set the loop reaches whose condition holds,
replacing it with its stable priority sort; the evaluation outcome is the
same as the pure model's, and every rule set keeps its condition and keeps
its rules up to permutation (unchanged, or replaced by their sort). -/
theorem C4_readonly_up_to_sort :
    ∀ (arena : Arena) (gs : List TaggedRuleGroup) (num : Int)
      (sets : List RuleSet),
      (ruleSetLoopST arena gs num sets).1 = ruleSetLoop arena gs num sets ∧
      List.Forall₂ (sortMutated arena) sets
        (ruleSetLoopST arena gs num sets).2 :=
  fun arena gs num sets =>
    ⟨ruleSetLoopST_fst arena gs num sets, ruleSetLoopST_snd arena gs num sets⟩

/-- Claim C5 counterexample: for the degenerate range start 10, end 0,
step 1 the code generates 0 numbers (`Array.from` clamps a negative length
to 0) while `ceil((end - start + 1) / step)` is -9, so "exactly
ceil((end - start + 1) / step) numbers" fails there. -/
theorem C5_counterexample :
    ((sequenceNumbers 10 0 1).length : Int) = 0 ∧
    ceilDiv (0 - 10 + 1) 1 = -9 ∧ (0 : Int) ≠ -9 :=
  ⟨by decide, by decide, by decide⟩

/-- Claim C5 (amended): `ceilDiv` is exact ceiling division (characterized
by its bounds for a positive divisor); for a positive step the driver
generates exactly `max 0 (ceil((endNum - start + 1) / step))` numbers —
equal to `ceil((endNum - start + 1) / step)` whenever `start ≤ endNum + 1`
— the i-th being `start + i * step`; `run(10, 11, 5)` evaluates exactly the
single number 10, and `run(10, 50, 2)` with no plugins and the default
output and formatter yields the 21 space-joined default labels for
10, 12, ..., 50. -/
theorem C5_sequence_driver :
    (∀ a b : Int, 0 < b → a ≤ b * ceilDiv a b ∧ b * ceilDiv a b < a + b) ∧
    (∀ start endNum step : Int,
      (sequenceNumbers start endNum step).length =
        (max 0 (ceilDiv (endNum - start + 1) step)).toNat) ∧
    (∀ start endNum step : Int, 0 < step → start ≤ endNum + 1 →
      ((sequenceNumbers start endNum step).length : Int) =
        ceilDiv (endNum - start + 1) step) ∧
    (∀ (start endNum step : Int) (i : Nat),
      i < (sequenceNumbers start endNum step).length →
      (sequenceNumbers start endNum step)[i]? =
        some (start + (i : Int) * step)) ∧
    sequenceNumbers 10 11 5 = [10] ∧
    fizzBuzz emptyArena 10 11 5 [] defaultNumOutput defaultFormatter =
      some "10" ∧
    fizzBuzz emptyArena 10 50 2 [] defaultNumOutput defaultFormatter =
      some "10 12 14 16 18 20 22 24 26 28 30 32 34 36 38 40 42 44 46 48 50" :=
  ⟨ceilDiv_bounds,
    fun start endNum step => by
      unfold sequenceNumbers sequenceLength
      rw [List.length_map, List.length_range],
    sequenceNumbers_length, sequenceNumbers_getElem,
    by decide, by decide, by decide⟩

/-- C5 witness: the length and element statements applied at the concrete
range 10..50 with step 2. -/
theorem C5_sequence_driver_witness :
    ((sequenceNumbers 10 50 2).length : Int) = ceilDiv (50 - 10 + 1) 2 ∧
    (sequenceNumbers 10 50 2)[3]? = some (10 + (3 : Int) * 2) :=
  ⟨C5_sequence_driver.2.2.1 10 50 2 (by decide) (by decide),
    C5_sequence_driver.2.2.2.1 10 50 2 3 (by decide)⟩

/-- Claim C6: if every collected rule set either has a false condition or
contains no rule that passes its filter and matches, the per-number result
is the default output for that number. -/
theorem C6_default_fallback :
    ∀ (arena : Arena) (gs : List TaggedRuleGroup) (num : Int)
      (sets : List RuleSet) (d : Int → String),
      (∀ rs ∈ sets, rs.condition num = true →
        ∀ r ∈ rs.rules, ruleMatches arena num r = false) →
      evalNumber arena gs num sets d = some (d num) := by
  intro arena gs num sets d h
  unfold evalNumber
  rw [ruleSetLoop_none_of_nomatch arena gs num sets h]

/-- C6 witness: one rule set with a false condition and one active rule set
whose only rule never matches fall through to the default output. -/
theorem C6_default_fallback_witness :
    evalNumber c6Arena [] 7 [c6Set1, c6Set2] defaultNumOutput =
      some (defaultNumOutput 7) :=
  C6_default_fallback c6Arena [] 7 [c6Set1, c6Set2] defaultNumOutput (by decide)

/-- Claim C7: the match decision uses the rule's evaluator when present, else
the rule's per-rule condition when present; a rule with neither never
matches, and this is not an error — a pipeline whose only rule is malformed
still completes and returns the default output. -/
theorem C7_match_dispatch :
    (∀ (rule : FizzBuzzRule) (num : Int) (e : RuleEvaluator),
        rule.evaluator = some e → evaluateRule rule num = e num) ∧
    (∀ (rule : FizzBuzzRule) (num : Int) (c : RuleEvaluator),
        rule.evaluator = none → rule.condition = some c →
          evaluateRule rule num = c num) ∧
    (∀ (rule : FizzBuzzRule) (num : Int),
        rule.evaluator = none → rule.condition = none →
          evaluateRule rule num = false) ∧
    evalNumber c7Arena [] 9 [c7Set] defaultNumOutput = some "9" := by
  refine ⟨?_, ?_, ?_, by decide⟩
  · intro rule num e he
    unfold evaluateRule
    rw [he]
  · intro rule num c he hc
    unfold evaluateRule
    rw [he, hc]
  · intro rule num he hc
    unfold evaluateRule
    rw [he, hc]

/-- C7 witness: the dispatch statement applied to a concrete rule with an
evaluator. -/
theorem C7_match_dispatch_witness :
    evaluateRule c7Rule 6 = c7Eval 6 :=
  C7_match_dispatch.1 c7Rule 6 c7Eval rfl

/-- Claim C8: the plugin aggregation loop produces the four flattened
sequences — group selectors, rule selectors, group modifiers, result
formatters — each the concatenation, in plugin-list order then in-plugin
order, of the corresponding optional field across all plugins, absent
fields contributing nothing, with no deduplication (pure aggregation). -/
theorem C8_plugin_aggregation :
    ∀ plugins : List FizzBuzzPlugin,
      extractPlugins plugins =
        { ruleGroupSelectors :=
            plugins.flatMap (fun p => p.ruleGroupSelectors.getD [])
          ruleSelectors := plugins.flatMap (fun p => p.ruleSelectors.getD [])
          ruleGroupModifiers :=
            plugins.flatMap (fun p => p.ruleGroupModifiers.getD [])
          resultFormatters :=
            plugins.flatMap (fun p => p.resultFormatters.getD []) } := by
  intro plugins
  unfold extractPlugins
  rw [extractPlugins_foldl]
  simp

/-- Claim C9: the run result does not depend on any group's `selectBehavior`
nor on any plugin's `ruleGroupModifiers`: two plugin lists that agree except
in those fields produce the same result. -/
theorem C9_unused_fields_inert :
    ∀ (arena : Arena) (start endNum step : Int)
      (plugins plugins2 : List FizzBuzzPlugin) (d : Int → String)
      (fmt : ResultFormatter),
      List.Forall₂ pluginAgreesExceptUnused plugins plugins2 →
      fizzBuzz arena start endNum step plugins d fmt =
        fizzBuzz arena start endNum step plugins2 d fmt := by
  intro arena start endNum step plugins plugins2 d fmt h
  rw [fizzBuzz_eq, fizzBuzz_eq]
  refine congrArg (Option.map fmt) (mapM_option_congr _ _ _ ?_)
  intro x _
  unfold applyRules
  have hsel : List.Forall₂ groupSelAgrees
      (extractPlugins plugins).ruleGroupSelectors
      (extractPlugins plugins2).ruleGroupSelectors := by
    rw [extractPlugins_gsels, extractPlugins_gsels]
    exact selectors_flatMap_agrees plugins plugins2 h
  have hrs : (extractPlugins plugins).ruleSelectors =
      (extractPlugins plugins2).ruleSelectors := by
    rw [extractPlugins_rsels, extractPlugins_rsels]
    exact ruleSelectors_flatMap_eq plugins plugins2 h
  rw [hrs]
  exact evalNumber_congr arena x _ d _ _
    (collectGroups_congr _ _ hsel x)

/-- C9 witness: two concrete one-plugin lists differing only in the group's
`selectBehavior` and in `ruleGroupModifiers` give the same run result. -/
theorem C9_unused_fields_inert_witness :
    fizzBuzz c9Arena 1 3 1 [c9Plugin] defaultNumOutput defaultFormatter =
      fizzBuzz c9Arena 1 3 1 [c9PluginB] defaultNumOutput defaultFormatter :=
  C9_unused_fields_inert c9Arena 1 3 1 [c9Plugin] [c9PluginB]
    defaultNumOutput defaultFormatter
    (List.Forall₂.cons
      ⟨List.Forall₂.cons
          (fun _ => List.Forall₂.cons ⟨rfl, rfl, rfl, rfl⟩ List.Forall₂.nil)
          List.Forall₂.nil,
        rfl, rfl⟩
      List.Forall₂.nil)

/-- Claim C10: the `resultTransformer` field declared on an individual rule is
never consumed — two arenas whose rules agree on every field except their
own `resultTransformer` produce the same run result. -/
theorem C10_rule_transformer_inert :
    ∀ (arena arena2 : Arena) (start endNum step : Int)
      (plugins : List FizzBuzzPlugin) (d : Int → String)
      (fmt : ResultFormatter),
      (∀ rid, ruleAgreesExceptRT (arena rid) (arena2 rid)) →
      fizzBuzz arena start endNum step plugins d fmt =
        fizzBuzz arena2 start endNum step plugins d fmt := by
  intro arena arena2 start endNum step plugins d fmt h
  rw [fizzBuzz_eq, fizzBuzz_eq]
  refine congrArg (Option.map fmt) (mapM_option_congr _ _ _ ?_)
  intro x _
  unfold applyRules evalNumber
  rw [ruleSetLoop_arena_congr arena arena2 h]

/-- C10 witness: adding a rule-level `resultTransformer` to every rule of a
concrete arena does not change the run result. -/
theorem C10_rule_transformer_inert_witness :
    fizzBuzz c10ArenaA 1 5 1 [c10Plugin] defaultNumOutput defaultFormatter =
      fizzBuzz c10ArenaB 1 5 1 [c10Plugin] defaultNumOutput defaultFormatter :=
  C10_rule_transformer_inert c10ArenaA c10ArenaB 1 5 1 [c10Plugin]
    defaultNumOutput defaultFormatter
    (fun _ => ⟨rfl, rfl, rfl, rfl, rfl, rfl⟩)
